import Mathlib

/-!
# Window helper addon: the marshalling boundary

A shallow embedding of `src/native/window-helper-addon/src/window_helper.cc` and of the
interface declared in `window_manager.h`.

Modelling decisions:

* The platform layer (`*Native` functions and `RequestAccessibilityPermission`) is only declared
  in `window_manager.h`; its behaviour at the moment of a call is a parameter, `NativeLayer`.
  Every native function either returns a value or throws a C++ exception, which is either a
  `std::exception` carrying its `what()` text or an exception of another type.
* Every invocation of a native function is appended to a call log that is threaded through the
  callback, so "which native functions ran, with what arguments, how many times" is observable.
* A callback ends either by returning a `Napi::Value` (possibly with a JavaScript exception left
  pending by `ThrowAsJavaScriptException`) or by letting a C++ exception escape.
* Strings are sequences of Unicode scalar values, on which `Utf8Value` and `Napi::String::New`
  are exact. C `int` values convert to JavaScript numbers without loss, so a number produced by
  the addon is represented by the integer it was built from.
-/

namespace WindowHelper

/-! ## JavaScript values -/

/-- JavaScript values crossing the addon boundary. `other` stands for a value of any remaining
kind (function, symbol, bigint, non-integral number, array, ...). -/
inductive JsValue where
  | undefined
  | null
  | boolean (b : Bool)
  | number (n : Int)
  | string (s : String)
  | object (props : List (String × JsValue))
  | other (id : Nat)

/-- Property list of a JavaScript object, in insertion order. -/
abbrev Object := List (String × JsValue)

/-- Embedding of `Napi::Object::New`: the empty object. -/
def Object.New : Object := []

/-- Embedding of `Napi::Object::Set`: overwrite the property when the key exists, append it
otherwise. -/
def Object.Set (o : Object) (key : String) (value : JsValue) : Object :=
  if o.any (fun p => p.1 == key) then
    o.map (fun p => if p.1 == key then (p.1, value) else p)
  else
    o ++ [(key, value)]

/-- Embedding of `Napi::Object::Get`: the property value, `undefined` when the key is absent. -/
def Object.Get (o : Object) (key : String) : JsValue :=
  match o.find? (fun p => p.1 == key) with
  | some p => p.2
  | none => JsValue.undefined

/-- Own property names of an object, in insertion order. -/
def Object.keys (o : Object) : List String :=
  o.map (fun p => p.1)

/-- Embedding of `Napi::Value::IsString`. -/
def JsValue.IsString : JsValue → Bool
  | JsValue.string _ => true
  | _ => false

/-- Embedding of `Napi::Value::IsObject`. -/
def JsValue.IsObject : JsValue → Bool
  | JsValue.object _ => true
  | _ => false

/-- Embedding of `info[0].As<Napi::String>().Utf8Value()`. The callbacks reach it only behind an
`IsString` guard; on any other value the text is empty. -/
def JsValue.Utf8Value : JsValue → String
  | JsValue.string s => s
  | _ => ""

/-- Arguments of a call, the content of `Napi::CallbackInfo`. -/
abbrev CallbackInfo := List JsValue

/-- Embedding of `info.Length()`. -/
def CallbackInfo.Length (info : CallbackInfo) : Nat :=
  List.length info

/-- Embedding of `info[i]`: the argument, `undefined` past the end of the argument list. -/
def CallbackInfo.get (info : CallbackInfo) (i : Nat) : JsValue :=
  List.getD info i JsValue.undefined

/-- JavaScript exceptions the addon creates: `Napi::TypeError::New` and `Napi::Error::New`. -/
inductive JsError where
  | TypeError (message : String)
  | Error (message : String)
  deriving DecidableEq, Repr

/-! ## The platform layer of `window_manager.h` -/

/-- Embedding of `struct WindowManagerResult`. -/
structure WindowManagerResult where
  success : Bool
  minimized : Int
  restored : Int
  total : Int
  error : String
  errorCode : String
  deriving DecidableEq, Repr

/-- C++ exception in flight: a `std::exception` with its `what()` text, or any other type. -/
inductive CppException where
  | stdException (what : String)
  | nonStd
  deriving DecidableEq, Repr

/-- How a call of a native function ends. -/
inductive NativeOutcome (α : Type) where
  | returns (value : α)
  | throws (e : CppException)
  deriving DecidableEq, Repr

/-- Behaviour of the functions declared in `window_manager.h` at the moment of a call. -/
structure NativeLayer where
  RequestAccessibilityPermission : NativeOutcome Bool
  CheckAccessibilityPermissionsNative : NativeOutcome Bool
  MinimizeAllWindowsNative : NativeOutcome WindowManagerResult
  RestoreAllWindowsNative : NativeOutcome WindowManagerResult
  HideAllAppsNative : NativeOutcome WindowManagerResult
  MinimizeAppNative : String → NativeOutcome WindowManagerResult
  MinimizeAllWindowsExcludingNative : String → NativeOutcome WindowManagerResult

/-- One invocation of a function of `window_manager.h`, with its argument. -/
inductive NativeCall where
  | RequestAccessibilityPermission
  | CheckAccessibilityPermissionsNative
  | MinimizeAllWindowsNative
  | RestoreAllWindowsNative
  | HideAllAppsNative
  | MinimizeAppNative (appName : String)
  | MinimizeAllWindowsExcludingNative (excludeAppName : String)
  deriving DecidableEq, Repr

/-- Native invocations made so far, oldest first. -/
abbrev CallLog := List NativeCall

/-- Invoke `RequestAccessibilityPermission()`, recording the invocation. -/
def callRequestAccessibilityPermission (N : NativeLayer) (log : CallLog) :
    NativeOutcome Bool × CallLog :=
  (N.RequestAccessibilityPermission, log ++ [NativeCall.RequestAccessibilityPermission])

/-- Invoke `CheckAccessibilityPermissionsNative()`, recording the invocation. -/
def callCheckAccessibilityPermissionsNative (N : NativeLayer) (log : CallLog) :
    NativeOutcome Bool × CallLog :=
  (N.CheckAccessibilityPermissionsNative, log ++ [NativeCall.CheckAccessibilityPermissionsNative])

/-- Invoke `MinimizeAllWindowsNative()`, recording the invocation. -/
def callMinimizeAllWindowsNative (N : NativeLayer) (log : CallLog) :
    NativeOutcome WindowManagerResult × CallLog :=
  (N.MinimizeAllWindowsNative, log ++ [NativeCall.MinimizeAllWindowsNative])

/-- Invoke `RestoreAllWindowsNative()`, recording the invocation. -/
def callRestoreAllWindowsNative (N : NativeLayer) (log : CallLog) :
    NativeOutcome WindowManagerResult × CallLog :=
  (N.RestoreAllWindowsNative, log ++ [NativeCall.RestoreAllWindowsNative])

/-- Invoke `HideAllAppsNative()`, recording the invocation. -/
def callHideAllAppsNative (N : NativeLayer) (log : CallLog) :
    NativeOutcome WindowManagerResult × CallLog :=
  (N.HideAllAppsNative, log ++ [NativeCall.HideAllAppsNative])

/-- Invoke `MinimizeAppNative(appName)`, recording the invocation and its argument. -/
def callMinimizeAppNative (N : NativeLayer) (appName : String) (log : CallLog) :
    NativeOutcome WindowManagerResult × CallLog :=
  (N.MinimizeAppNative appName, log ++ [NativeCall.MinimizeAppNative appName])

/-- Invoke `MinimizeAllWindowsExcludingNative(excludeAppName)`, recording the invocation and its
argument. -/
def callMinimizeAllWindowsExcludingNative (N : NativeLayer) (excludeAppName : String)
    (log : CallLog) : NativeOutcome WindowManagerResult × CallLog :=
  (N.MinimizeAllWindowsExcludingNative excludeAppName,
    log ++ [NativeCall.MinimizeAllWindowsExcludingNative excludeAppName])

/-! ## The callbacks of `window_helper.cc` -/

/-- How control leaves a callback: a returned `Napi::Value`, or a C++ exception that no handler
of the callback caught. -/
inductive Completion where
  | returned (value : JsValue)
  | escaped (e : CppException)

/-- Everything observable about one run of a callback. -/
structure CallbackResult where
  /-- How control left the callback. -/
  completion : Completion
  /-- JavaScript exception left pending by `ThrowAsJavaScriptException`, if any. -/
  pending : Option JsError
  /-- Native functions invoked during the run, oldest first. -/
  calls : CallLog

/-- Embedding of `RequestPermission` (window_helper.cc, lines 5-11). -/
def RequestPermission (N : NativeLayer) (_info : CallbackInfo) : CallbackResult :=
  match callRequestAccessibilityPermission N [] with
  | (NativeOutcome.returns result, log) =>
      { completion := Completion.returned (JsValue.boolean result), pending := none, calls := log }
  | (NativeOutcome.throws e, log) =>
      { completion := Completion.escaped e, pending := none, calls := log }

/-- Embedding of `MinimizeAllWindows` (window_helper.cc, lines 14-32). -/
def MinimizeAllWindows (N : NativeLayer) (_info : CallbackInfo) : CallbackResult :=
  match callMinimizeAllWindowsNative N [] with
  | (NativeOutcome.returns result, log) =>
      let resultObj := Object.New
      let resultObj := resultObj.Set "success" (JsValue.boolean result.success)
      let resultObj := resultObj.Set "minimized" (JsValue.number result.minimized)
      let resultObj := resultObj.Set "total" (JsValue.number result.total)
      let resultObj := resultObj.Set "error" (JsValue.string result.error)
      let resultObj := resultObj.Set "errorCode" (JsValue.string result.errorCode)
      { completion := Completion.returned (JsValue.object resultObj), pending := none,
        calls := log }
  | (NativeOutcome.throws (CppException.stdException what), log) =>
      { completion := Completion.returned JsValue.null, pending := some (JsError.Error what),
        calls := log }
  | (NativeOutcome.throws CppException.nonStd, log) =>
      { completion := Completion.escaped CppException.nonStd, pending := none, calls := log }

/-- Embedding of `RestoreAllWindows` (window_helper.cc, lines 35-53). -/
def RestoreAllWindows (N : NativeLayer) (_info : CallbackInfo) : CallbackResult :=
  match callRestoreAllWindowsNative N [] with
  | (NativeOutcome.returns result, log) =>
      let resultObj := Object.New
      let resultObj := resultObj.Set "success" (JsValue.boolean result.success)
      let resultObj := resultObj.Set "restored" (JsValue.number result.restored)
      let resultObj := resultObj.Set "total" (JsValue.number result.total)
      let resultObj := resultObj.Set "error" (JsValue.string result.error)
      let resultObj := resultObj.Set "errorCode" (JsValue.string result.errorCode)
      { completion := Completion.returned (JsValue.object resultObj), pending := none,
        calls := log }
  | (NativeOutcome.throws (CppException.stdException what), log) =>
      { completion := Completion.returned JsValue.null, pending := some (JsError.Error what),
        calls := log }
  | (NativeOutcome.throws CppException.nonStd, log) =>
      { completion := Completion.escaped CppException.nonStd, pending := none, calls := log }

/-- Embedding of `HideAllApps` (window_helper.cc, lines 56-72). -/
def HideAllApps (N : NativeLayer) (_info : CallbackInfo) : CallbackResult :=
  match callHideAllAppsNative N [] with
  | (NativeOutcome.returns result, log) =>
      let resultObj := Object.New
      let resultObj := resultObj.Set "success" (JsValue.boolean result.success)
      let resultObj := resultObj.Set "error" (JsValue.string result.error)
      let resultObj := resultObj.Set "errorCode" (JsValue.string result.errorCode)
      { completion := Completion.returned (JsValue.object resultObj), pending := none,
        calls := log }
  | (NativeOutcome.throws (CppException.stdException what), log) =>
      { completion := Completion.returned JsValue.null, pending := some (JsError.Error what),
        calls := log }
  | (NativeOutcome.throws CppException.nonStd, log) =>
      { completion := Completion.escaped CppException.nonStd, pending := none, calls := log }

/-- Embedding of `MinimizeApp` (window_helper.cc, lines 75-100). -/
def MinimizeApp (N : NativeLayer) (info : CallbackInfo) : CallbackResult :=
  if info.Length < 1 || !(info.get 0).IsString then
    { completion := Completion.returned JsValue.null,
      pending := some (JsError.TypeError "Expected app name as string"), calls := [] }
  else
    let appName := (info.get 0).Utf8Value
    match callMinimizeAppNative N appName [] with
    | (NativeOutcome.returns result, log) =>
        let resultObj := Object.New
        let resultObj := resultObj.Set "success" (JsValue.boolean result.success)
        let resultObj := resultObj.Set "minimized" (JsValue.number result.minimized)
        let resultObj := resultObj.Set "total" (JsValue.number result.total)
        let resultObj := resultObj.Set "error" (JsValue.string result.error)
        let resultObj := resultObj.Set "errorCode" (JsValue.string result.errorCode)
        { completion := Completion.returned (JsValue.object resultObj), pending := none,
          calls := log }
    | (NativeOutcome.throws (CppException.stdException what), log) =>
        { completion := Completion.returned JsValue.null, pending := some (JsError.Error what),
          calls := log }
    | (NativeOutcome.throws CppException.nonStd, log) =>
        { completion := Completion.escaped CppException.nonStd, pending := none, calls := log }

/-- Embedding of `MinimizeAllWindowsExcluding` (window_helper.cc, lines 103-128). -/
def MinimizeAllWindowsExcluding (N : NativeLayer) (info : CallbackInfo) : CallbackResult :=
  if info.Length < 1 || !(info.get 0).IsString then
    { completion := Completion.returned JsValue.null,
      pending := some (JsError.TypeError "Expected app name as string"), calls := [] }
  else
    let excludeAppName := (info.get 0).Utf8Value
    match callMinimizeAllWindowsExcludingNative N excludeAppName [] with
    | (NativeOutcome.returns result, log) =>
        let resultObj := Object.New
        let resultObj := resultObj.Set "success" (JsValue.boolean result.success)
        let resultObj := resultObj.Set "minimized" (JsValue.number result.minimized)
        let resultObj := resultObj.Set "total" (JsValue.number result.total)
        let resultObj := resultObj.Set "error" (JsValue.string result.error)
        let resultObj := resultObj.Set "errorCode" (JsValue.string result.errorCode)
        { completion := Completion.returned (JsValue.object resultObj), pending := none,
          calls := log }
    | (NativeOutcome.throws (CppException.stdException what), log) =>
        { completion := Completion.returned JsValue.null, pending := some (JsError.Error what),
          calls := log }
    | (NativeOutcome.throws CppException.nonStd, log) =>
        { completion := Completion.escaped CppException.nonStd, pending := none, calls := log }

/-- Embedding of `CheckAccessibilityPermissions` (window_helper.cc, lines 131-137). -/
def CheckAccessibilityPermissions (N : NativeLayer) (_info : CallbackInfo) : CallbackResult :=
  match callCheckAccessibilityPermissionsNative N [] with
  | (NativeOutcome.returns hasPermissions, log) =>
      { completion := Completion.returned (JsValue.boolean hasPermissions), pending := none,
        calls := log }
  | (NativeOutcome.throws e, log) =>
      { completion := Completion.escaped e, pending := none, calls := log }


/-! ## What the JavaScript caller observes -/

/-- The result object a call hands to its caller: the returned value when it is an object and no
JavaScript exception is pending. -/
def CallbackResult.resultObject (c : CallbackResult) : Option Object :=
  match c.completion, c.pending with
  | Completion.returned (JsValue.object o), none => some o
  | _, _ => none

/-- The call ends with an error raised to the caller: a JavaScript exception is pending and the
returned value is null. -/
def CallbackResult.RaisedError (c : CallbackResult) : Prop :=
  (∃ e, c.pending = some e) ∧ c.completion = Completion.returned JsValue.null

/-- Embedding of `Napi::Value::IsBoolean`. -/
def JsValue.IsBoolean : JsValue → Bool
  | JsValue.boolean _ => true
  | _ => false

/-- Embedding of `Napi::Value::IsNumber`. -/
def JsValue.IsNumber : JsValue → Bool
  | JsValue.number _ => true
  | _ => false

/-- The value has the type the result record gives to the property `key`: a boolean for
`success`, a number for `minimized`, `restored` and `total`, a string for `error` and
`errorCode`. No value is well typed for any other key. -/
def fieldWellTyped (key : String) (value : JsValue) : Bool :=
  if key = "success" then value.IsBoolean
  else if key = "minimized" ∨ key = "restored" ∨ key = "total" then value.IsNumber
  else if key = "error" ∨ key = "errorCode" then value.IsString
  else false

/-- The call ends with a fully populated result object: no JavaScript exception is pending and
the returned object holds exactly the properties `keys`, each with a value of its type. -/
def CallbackResult.FullResult (keys : List String) (c : CallbackResult) : Prop :=
  ∃ o, c.resultObject = some o ∧ Object.keys o = keys ∧
    ∀ k, k ∈ keys → fieldWellTyped k (Object.Get o k) = true

/-- The call ends in exactly one of the two well-formed ways: a result object holding exactly the
properties `keys` and no error, or a raised error and no result object. -/
def CallbackResult.EndsWellFormed (keys : List String) (c : CallbackResult) : Prop :=
  (c.FullResult keys ∧ ¬ c.RaisedError) ∨ (c.RaisedError ∧ c.resultObject = none)

/-- The success/error invariant of the spec, read on a native result. -/
def WindowManagerResult.Consistent (r : WindowManagerResult) : Prop :=
  (r.success = false ↔ (r.error ≠ "" ∧ r.errorCode ≠ "")) ∧
  (r.success = true ↔ (r.error = "" ∧ r.errorCode = ""))

/-- The success/error invariant of the spec, read on a result object. -/
def Object.Consistent (o : Object) : Prop :=
  ∃ s e c, Object.Get o "success" = JsValue.boolean s ∧ Object.Get o "error" = JsValue.string e ∧
    Object.Get o "errorCode" = JsValue.string c ∧
    (s = false ↔ (e ≠ "" ∧ c ≠ "")) ∧ (s = true ↔ (e = "" ∧ c = ""))

/-- The count invariant of the spec, read on a result object whose count field is `countKey`. -/
def Object.CountBounded (o : Object) (countKey : String) : Prop :=
  ∃ n t, Object.Get o countKey = JsValue.number n ∧ Object.Get o "total" = JsValue.number t ∧
    0 ≤ n ∧ n ≤ t

/-! ## Concrete platform behaviours used as test inputs -/

/-- Result of an operation that found no window: nothing changed, nothing failed. -/
def emptyResult : WindowManagerResult :=
  { success := true, minimized := 0, restored := 0, total := 0, error := "", errorCode := "" }

/-- Result of an operation the platform refused. -/
def deniedResult : WindowManagerResult :=
  { success := false, minimized := 0, restored := 0, total := 4,
    error := "Accessibility permission denied", errorCode := "PERMISSION_DENIED" }

/-- Result that reports success together with an error text. -/
def staleErrorResult : WindowManagerResult :=
  { success := true, minimized := 2, restored := 2, total := 3, error := "stale", errorCode := "" }

/-- Result that counts more affected windows than windows found. -/
def overcountResult : WindowManagerResult :=
  { success := true, minimized := 5, restored := 5, total := 3, error := "", errorCode := "" }

/-- Result with filled counters, used to show which fields an operation forwards. -/
def busyResult : WindowManagerResult :=
  { success := true, minimized := 7, restored := 2, total := 9, error := "", errorCode := "" }

/-- Platform layer where permission is granted and every operation ends with `r`. -/
def constantLayer (r : WindowManagerResult) : NativeLayer :=
  { RequestAccessibilityPermission := NativeOutcome.returns true
    CheckAccessibilityPermissionsNative := NativeOutcome.returns true
    MinimizeAllWindowsNative := NativeOutcome.returns r
    RestoreAllWindowsNative := NativeOutcome.returns r
    HideAllAppsNative := NativeOutcome.returns r
    MinimizeAppNative := fun _ => NativeOutcome.returns r
    MinimizeAllWindowsExcludingNative := fun _ => NativeOutcome.returns r }

/-- Platform layer where permission is granted and every operation finds no window. -/
def quietLayer : NativeLayer :=
  constantLayer emptyResult

/-- Platform layer where permission is denied and every operation throws a `std::exception`
whose `what()` is `what`. -/
def throwingLayer (what : String) : NativeLayer :=
  { RequestAccessibilityPermission := NativeOutcome.returns false
    CheckAccessibilityPermissionsNative := NativeOutcome.returns false
    MinimizeAllWindowsNative := NativeOutcome.throws (CppException.stdException what)
    RestoreAllWindowsNative := NativeOutcome.throws (CppException.stdException what)
    HideAllAppsNative := NativeOutcome.throws (CppException.stdException what)
    MinimizeAppNative := fun _ => NativeOutcome.throws (CppException.stdException what)
    MinimizeAllWindowsExcludingNative :=
      fun _ => NativeOutcome.throws (CppException.stdException what) }

/-- Platform layer where permission is denied and every operation throws an exception that is
not a `std::exception`. -/
def nonStdLayer : NativeLayer :=
  { RequestAccessibilityPermission := NativeOutcome.returns false
    CheckAccessibilityPermissionsNative := NativeOutcome.returns false
    MinimizeAllWindowsNative := NativeOutcome.throws CppException.nonStd
    RestoreAllWindowsNative := NativeOutcome.throws CppException.nonStd
    HideAllAppsNative := NativeOutcome.throws CppException.nonStd
    MinimizeAppNative := fun _ => NativeOutcome.throws CppException.nonStd
    MinimizeAllWindowsExcludingNative := fun _ => NativeOutcome.throws CppException.nonStd }

/-! ## How each callback runs on each outcome of its native call -/

/-- The run of `MinimizeAllWindows` when its native call returns `r`. -/
theorem MinimizeAllWindows_of_returns {N : NativeLayer} {r : WindowManagerResult}
    (info : CallbackInfo) (h : N.MinimizeAllWindowsNative = NativeOutcome.returns r) :
    MinimizeAllWindows N info =
      { completion := Completion.returned (JsValue.object
          [("success", JsValue.boolean r.success), ("minimized", JsValue.number r.minimized),
           ("total", JsValue.number r.total), ("error", JsValue.string r.error),
           ("errorCode", JsValue.string r.errorCode)]),
        pending := none, calls := [NativeCall.MinimizeAllWindowsNative] } := by
  simp [MinimizeAllWindows, callMinimizeAllWindowsNative, h, Object.Set, Object.New]

theorem MinimizeAllWindows_of_stdException {N : NativeLayer} {what : String}
    (info : CallbackInfo)
    (h : N.MinimizeAllWindowsNative = NativeOutcome.throws (CppException.stdException what)) :
    MinimizeAllWindows N info =
      { completion := Completion.returned JsValue.null, pending := some (JsError.Error what),
        calls := [NativeCall.MinimizeAllWindowsNative] } := by
  simp [MinimizeAllWindows, callMinimizeAllWindowsNative, h]

theorem MinimizeAllWindows_of_nonStd {N : NativeLayer} (info : CallbackInfo)
    (h : N.MinimizeAllWindowsNative = NativeOutcome.throws CppException.nonStd) :
    MinimizeAllWindows N info =
      { completion := Completion.escaped CppException.nonStd, pending := none,
        calls := [NativeCall.MinimizeAllWindowsNative] } := by
  simp [MinimizeAllWindows, callMinimizeAllWindowsNative, h]

theorem RestoreAllWindows_of_returns {N : NativeLayer} {r : WindowManagerResult}
    (info : CallbackInfo) (h : N.RestoreAllWindowsNative = NativeOutcome.returns r) :
    RestoreAllWindows N info =
      { completion := Completion.returned (JsValue.object
          [("success", JsValue.boolean r.success), ("restored", JsValue.number r.restored),
           ("total", JsValue.number r.total), ("error", JsValue.string r.error),
           ("errorCode", JsValue.string r.errorCode)]),
        pending := none, calls := [NativeCall.RestoreAllWindowsNative] } := by
  simp [RestoreAllWindows, callRestoreAllWindowsNative, h, Object.Set, Object.New]

theorem RestoreAllWindows_of_stdException {N : NativeLayer} {what : String}
    (info : CallbackInfo)
    (h : N.RestoreAllWindowsNative = NativeOutcome.throws (CppException.stdException what)) :
    RestoreAllWindows N info =
      { completion := Completion.returned JsValue.null, pending := some (JsError.Error what),
        calls := [NativeCall.RestoreAllWindowsNative] } := by
  simp [RestoreAllWindows, callRestoreAllWindowsNative, h]

theorem RestoreAllWindows_of_nonStd {N : NativeLayer} (info : CallbackInfo)
    (h : N.RestoreAllWindowsNative = NativeOutcome.throws CppException.nonStd) :
    RestoreAllWindows N info =
      { completion := Completion.escaped CppException.nonStd, pending := none,
        calls := [NativeCall.RestoreAllWindowsNative] } := by
  simp [RestoreAllWindows, callRestoreAllWindowsNative, h]

theorem HideAllApps_of_returns {N : NativeLayer} {r : WindowManagerResult}
    (info : CallbackInfo) (h : N.HideAllAppsNative = NativeOutcome.returns r) :
    HideAllApps N info =
      { completion := Completion.returned (JsValue.object
          [("success", JsValue.boolean r.success), ("error", JsValue.string r.error),
           ("errorCode", JsValue.string r.errorCode)]),
        pending := none, calls := [NativeCall.HideAllAppsNative] } := by
  simp [HideAllApps, callHideAllAppsNative, h, Object.Set, Object.New]

theorem HideAllApps_of_stdException {N : NativeLayer} {what : String}
    (info : CallbackInfo)
    (h : N.HideAllAppsNative = NativeOutcome.throws (CppException.stdException what)) :
    HideAllApps N info =
      { completion := Completion.returned JsValue.null, pending := some (JsError.Error what),
        calls := [NativeCall.HideAllAppsNative] } := by
  simp [HideAllApps, callHideAllAppsNative, h]

theorem HideAllApps_of_nonStd {N : NativeLayer} (info : CallbackInfo)
    (h : N.HideAllAppsNative = NativeOutcome.throws CppException.nonStd) :
    HideAllApps N info =
      { completion := Completion.escaped CppException.nonStd, pending := none,
        calls := [NativeCall.HideAllAppsNative] } := by
  simp [HideAllApps, callHideAllAppsNative, h]

theorem MinimizeApp_of_returns {N : NativeLayer} {r : WindowManagerResult} {s : String}
    (rest : List JsValue) (h : N.MinimizeAppNative s = NativeOutcome.returns r) :
    MinimizeApp N (JsValue.string s :: rest) =
      { completion := Completion.returned (JsValue.object
          [("success", JsValue.boolean r.success), ("minimized", JsValue.number r.minimized),
           ("total", JsValue.number r.total), ("error", JsValue.string r.error),
           ("errorCode", JsValue.string r.errorCode)]),
        pending := none, calls := [NativeCall.MinimizeAppNative s] } := by
  simp [MinimizeApp, callMinimizeAppNative, h, Object.Set, Object.New, CallbackInfo.Length,
    CallbackInfo.get, JsValue.IsString, JsValue.Utf8Value]

theorem MinimizeApp_of_stdException {N : NativeLayer} {what s : String} (rest : List JsValue)
    (h : N.MinimizeAppNative s = NativeOutcome.throws (CppException.stdException what)) :
    MinimizeApp N (JsValue.string s :: rest) =
      { completion := Completion.returned JsValue.null, pending := some (JsError.Error what),
        calls := [NativeCall.MinimizeAppNative s] } := by
  simp [MinimizeApp, callMinimizeAppNative, h, CallbackInfo.Length, CallbackInfo.get,
    JsValue.IsString, JsValue.Utf8Value]

theorem MinimizeApp_of_nonStd {N : NativeLayer} {s : String} (rest : List JsValue)
    (h : N.MinimizeAppNative s = NativeOutcome.throws CppException.nonStd) :
    MinimizeApp N (JsValue.string s :: rest) =
      { completion := Completion.escaped CppException.nonStd, pending := none,
        calls := [NativeCall.MinimizeAppNative s] } := by
  simp [MinimizeApp, callMinimizeAppNative, h, CallbackInfo.Length, CallbackInfo.get,
    JsValue.IsString, JsValue.Utf8Value]

theorem MinimizeAllWindowsExcluding_of_returns {N : NativeLayer} {r : WindowManagerResult}
    {s : String} (rest : List JsValue)
    (h : N.MinimizeAllWindowsExcludingNative s = NativeOutcome.returns r) :
    MinimizeAllWindowsExcluding N (JsValue.string s :: rest) =
      { completion := Completion.returned (JsValue.object
          [("success", JsValue.boolean r.success), ("minimized", JsValue.number r.minimized),
           ("total", JsValue.number r.total), ("error", JsValue.string r.error),
           ("errorCode", JsValue.string r.errorCode)]),
        pending := none, calls := [NativeCall.MinimizeAllWindowsExcludingNative s] } := by
  simp [MinimizeAllWindowsExcluding, callMinimizeAllWindowsExcludingNative, h, Object.Set,
    Object.New, CallbackInfo.Length, CallbackInfo.get, JsValue.IsString, JsValue.Utf8Value]

theorem MinimizeAllWindowsExcluding_of_stdException {N : NativeLayer} {what s : String}
    (rest : List JsValue)
    (h : N.MinimizeAllWindowsExcludingNative s
      = NativeOutcome.throws (CppException.stdException what)) :
    MinimizeAllWindowsExcluding N (JsValue.string s :: rest) =
      { completion := Completion.returned JsValue.null, pending := some (JsError.Error what),
        calls := [NativeCall.MinimizeAllWindowsExcludingNative s] } := by
  simp [MinimizeAllWindowsExcluding, callMinimizeAllWindowsExcludingNative, h,
    CallbackInfo.Length, CallbackInfo.get, JsValue.IsString, JsValue.Utf8Value]

theorem MinimizeAllWindowsExcluding_of_nonStd {N : NativeLayer} {s : String}
    (rest : List JsValue)
    (h : N.MinimizeAllWindowsExcludingNative s = NativeOutcome.throws CppException.nonStd) :
    MinimizeAllWindowsExcluding N (JsValue.string s :: rest) =
      { completion := Completion.escaped CppException.nonStd, pending := none,
        calls := [NativeCall.MinimizeAllWindowsExcludingNative s] } := by
  simp [MinimizeAllWindowsExcluding, callMinimizeAllWindowsExcludingNative, h,
    CallbackInfo.Length, CallbackInfo.get, JsValue.IsString, JsValue.Utf8Value]

/-- A rejected argument list: empty, or with a first argument that is not a string. -/
theorem MinimizeApp_of_rejected (N : NativeLayer) (info : CallbackInfo)
    (h : info = [] ∨ ∃ v rest, info = v :: rest ∧ v.IsString = false) :
    MinimizeApp N info =
      { completion := Completion.returned JsValue.null,
        pending := some (JsError.TypeError "Expected app name as string"), calls := [] } := by
  rcases h with h | ⟨v, rest, h, hv⟩
  · subst h
    simp [MinimizeApp, CallbackInfo.Length]
  · subst h
    simp [MinimizeApp, CallbackInfo.Length, CallbackInfo.get, hv]

theorem MinimizeAllWindowsExcluding_of_rejected (N : NativeLayer) (info : CallbackInfo)
    (h : info = [] ∨ ∃ v rest, info = v :: rest ∧ v.IsString = false) :
    MinimizeAllWindowsExcluding N info =
      { completion := Completion.returned JsValue.null,
        pending := some (JsError.TypeError "Expected app name as string"), calls := [] } := by
  rcases h with h | ⟨v, rest, h, hv⟩
  · subst h
    simp [MinimizeAllWindowsExcluding, CallbackInfo.Length]
  · subst h
    simp [MinimizeAllWindowsExcluding, CallbackInfo.Length, CallbackInfo.get, hv]

/-- Every argument list is either rejected or starts with a string. -/
theorem CallbackInfo.rejected_or_string (info : CallbackInfo) :
    (info = [] ∨ ∃ v rest, info = v :: rest ∧ v.IsString = false) ∨
      ∃ s rest, info = JsValue.string s :: rest := by
  cases info with
  | nil => exact Or.inl (Or.inl rfl)
  | cons v rest =>
    cases v with
    | string s => exact Or.inr ⟨s, rest, rfl⟩
    | _ => exact Or.inl (Or.inr ⟨_, rest, rfl, rfl⟩)

/-! ## Where a result object can come from -/

theorem MinimizeAllWindows_resultObject {N : NativeLayer} {info : CallbackInfo} {o : Object}
    (h : (MinimizeAllWindows N info).resultObject = some o) :
    ∃ r, N.MinimizeAllWindowsNative = NativeOutcome.returns r ∧
      o = [("success", JsValue.boolean r.success), ("minimized", JsValue.number r.minimized),
        ("total", JsValue.number r.total), ("error", JsValue.string r.error),
        ("errorCode", JsValue.string r.errorCode)] := by
  rcases hN : N.MinimizeAllWindowsNative with r | (m | _)
  · refine ⟨r, rfl, ?_⟩
    simpa [MinimizeAllWindows_of_returns info hN, CallbackResult.resultObject, eq_comm] using h
  · simp [MinimizeAllWindows_of_stdException info hN, CallbackResult.resultObject] at h
  · simp [MinimizeAllWindows_of_nonStd info hN, CallbackResult.resultObject] at h

theorem RestoreAllWindows_resultObject {N : NativeLayer} {info : CallbackInfo} {o : Object}
    (h : (RestoreAllWindows N info).resultObject = some o) :
    ∃ r, N.RestoreAllWindowsNative = NativeOutcome.returns r ∧
      o = [("success", JsValue.boolean r.success), ("restored", JsValue.number r.restored),
        ("total", JsValue.number r.total), ("error", JsValue.string r.error),
        ("errorCode", JsValue.string r.errorCode)] := by
  rcases hN : N.RestoreAllWindowsNative with r | (m | _)
  · refine ⟨r, rfl, ?_⟩
    simpa [RestoreAllWindows_of_returns info hN, CallbackResult.resultObject, eq_comm] using h
  · simp [RestoreAllWindows_of_stdException info hN, CallbackResult.resultObject] at h
  · simp [RestoreAllWindows_of_nonStd info hN, CallbackResult.resultObject] at h

theorem HideAllApps_resultObject {N : NativeLayer} {info : CallbackInfo} {o : Object}
    (h : (HideAllApps N info).resultObject = some o) :
    ∃ r, N.HideAllAppsNative = NativeOutcome.returns r ∧
      o = [("success", JsValue.boolean r.success), ("error", JsValue.string r.error),
        ("errorCode", JsValue.string r.errorCode)] := by
  rcases hN : N.HideAllAppsNative with r | (m | _)
  · refine ⟨r, rfl, ?_⟩
    simpa [HideAllApps_of_returns info hN, CallbackResult.resultObject, eq_comm] using h
  · simp [HideAllApps_of_stdException info hN, CallbackResult.resultObject] at h
  · simp [HideAllApps_of_nonStd info hN, CallbackResult.resultObject] at h

theorem MinimizeApp_resultObject {N : NativeLayer} {info : CallbackInfo} {o : Object}
    (h : (MinimizeApp N info).resultObject = some o) :
    ∃ s rest r, info = JsValue.string s :: rest ∧
      N.MinimizeAppNative s = NativeOutcome.returns r ∧
      o = [("success", JsValue.boolean r.success), ("minimized", JsValue.number r.minimized),
        ("total", JsValue.number r.total), ("error", JsValue.string r.error),
        ("errorCode", JsValue.string r.errorCode)] := by
  rcases CallbackInfo.rejected_or_string info with hr | ⟨s, rest, hi⟩
  · simp [MinimizeApp_of_rejected N info hr, CallbackResult.resultObject] at h
  · subst hi
    rcases hN : N.MinimizeAppNative s with r | (m | _)
    · refine ⟨s, rest, r, rfl, hN, ?_⟩
      simpa [MinimizeApp_of_returns rest hN, CallbackResult.resultObject, eq_comm] using h
    · simp [MinimizeApp_of_stdException rest hN, CallbackResult.resultObject] at h
    · simp [MinimizeApp_of_nonStd rest hN, CallbackResult.resultObject] at h

theorem MinimizeAllWindowsExcluding_resultObject {N : NativeLayer} {info : CallbackInfo}
    {o : Object} (h : (MinimizeAllWindowsExcluding N info).resultObject = some o) :
    ∃ s rest r, info = JsValue.string s :: rest ∧
      N.MinimizeAllWindowsExcludingNative s = NativeOutcome.returns r ∧
      o = [("success", JsValue.boolean r.success), ("minimized", JsValue.number r.minimized),
        ("total", JsValue.number r.total), ("error", JsValue.string r.error),
        ("errorCode", JsValue.string r.errorCode)] := by
  rcases CallbackInfo.rejected_or_string info with hr | ⟨s, rest, hi⟩
  · simp [MinimizeAllWindowsExcluding_of_rejected N info hr, CallbackResult.resultObject] at h
  · subst hi
    rcases hN : N.MinimizeAllWindowsExcludingNative s with r | (m | _)
    · refine ⟨s, rest, r, rfl, hN, ?_⟩
      simpa [MinimizeAllWindowsExcluding_of_returns rest hN, CallbackResult.resultObject,
        eq_comm] using h
    · simp [MinimizeAllWindowsExcluding_of_stdException rest hN,
        CallbackResult.resultObject] at h
    · simp [MinimizeAllWindowsExcluding_of_nonStd rest hN, CallbackResult.resultObject] at h

/-- An object whose success, error and errorCode are those of `r` satisfies the success/error
invariant exactly when `r` does. -/
theorem Object.consistent_iff_of_fields {o : Object} {r : WindowManagerResult}
    (hs : Object.Get o "success" = JsValue.boolean r.success)
    (he : Object.Get o "error" = JsValue.string r.error)
    (hc : Object.Get o "errorCode" = JsValue.string r.errorCode) :
    Object.Consistent o ↔ r.Consistent := by
  constructor
  · rintro ⟨b, e, c, hb, hE, hC, h⟩
    rw [hs] at hb
    rw [he] at hE
    rw [hc] at hC
    cases hb
    cases hE
    cases hC
    exact h
  · intro h
    exact ⟨r.success, r.error, r.errorCode, hs, he, hc, h⟩

/-- An object whose count field and total are the numbers `n` and `t` satisfies the count
invariant exactly when `0 ≤ n ≤ t`. -/
theorem Object.countBounded_iff_of_fields {o : Object} {countKey : String} {n t : Int}
    (hn : Object.Get o countKey = JsValue.number n)
    (ht : Object.Get o "total" = JsValue.number t) :
    Object.CountBounded o countKey ↔ (0 ≤ n ∧ n ≤ t) := by
  constructor
  · rintro ⟨a, b, ha, hb, h⟩
    rw [hn] at ha
    rw [ht] at hb
    cases ha
    cases hb
    exact h
  · intro h
    exact ⟨n, t, hn, ht, h⟩

/-! ## Theorems -/

/-- C1: for MinimizeApp and MinimizeAllWindowsExcluding, when the argument list is empty or its
first argument is not a string, the call raises the TypeError "Expected app name as string",
returns null, and invokes no native function. -/
theorem argument_error_fails_fast (N : NativeLayer) (info : CallbackInfo)
    (h : info = [] ∨ ∃ v rest, info = v :: rest ∧ v.IsString = false) :
    ((MinimizeApp N info).pending = some (JsError.TypeError "Expected app name as string") ∧
      (MinimizeApp N info).completion = Completion.returned JsValue.null ∧
      (MinimizeApp N info).calls = []) ∧
    ((MinimizeAllWindowsExcluding N info).pending
        = some (JsError.TypeError "Expected app name as string") ∧
      (MinimizeAllWindowsExcluding N info).completion = Completion.returned JsValue.null ∧
      (MinimizeAllWindowsExcluding N info).calls = []) := by
  rw [MinimizeApp_of_rejected N info h, MinimizeAllWindowsExcluding_of_rejected N info h]
  simp

/-- Witness of C1 on the argument list `[3]`, whose first argument is a number. -/
theorem argument_error_fails_fast_witness :
    ((MinimizeApp quietLayer [JsValue.number 3]).pending
        = some (JsError.TypeError "Expected app name as string") ∧
      (MinimizeApp quietLayer [JsValue.number 3]).completion
        = Completion.returned JsValue.null ∧
      (MinimizeApp quietLayer [JsValue.number 3]).calls = []) ∧
    ((MinimizeAllWindowsExcluding quietLayer [JsValue.number 3]).pending
        = some (JsError.TypeError "Expected app name as string") ∧
      (MinimizeAllWindowsExcluding quietLayer [JsValue.number 3]).completion
        = Completion.returned JsValue.null ∧
      (MinimizeAllWindowsExcluding quietLayer [JsValue.number 3]).calls = []) :=
  argument_error_fails_fast quietLayer [JsValue.number 3]
    (Or.inr ⟨JsValue.number 3, [], rfl, rfl⟩)

/-- C2, as stated, fails: with the empty string as first argument and a platform layer that
finds no window, MinimizeApp and MinimizeAllWindowsExcluding raise nothing and return a result
object. -/
theorem empty_name_returns_result :
    ((MinimizeApp quietLayer [JsValue.string ""]).pending = none ∧
      (MinimizeApp quietLayer [JsValue.string ""]).resultObject =
        some [("success", JsValue.boolean true), ("minimized", JsValue.number 0),
          ("total", JsValue.number 0), ("error", JsValue.string ""),
          ("errorCode", JsValue.string "")]) ∧
    ((MinimizeAllWindowsExcluding quietLayer [JsValue.string ""]).pending = none ∧
      (MinimizeAllWindowsExcluding quietLayer [JsValue.string ""]).resultObject =
        some [("success", JsValue.boolean true), ("minimized", JsValue.number 0),
          ("total", JsValue.number 0), ("error", JsValue.string ""),
          ("errorCode", JsValue.string "")]) := by
  have h1 : quietLayer.MinimizeAppNative "" = NativeOutcome.returns emptyResult := rfl
  have h2 : quietLayer.MinimizeAllWindowsExcludingNative "" = NativeOutcome.returns emptyResult :=
    rfl
  rw [MinimizeApp_of_returns [] h1, MinimizeAllWindowsExcluding_of_returns [] h2]
  simp [CallbackResult.resultObject, emptyResult]

/-- C2, amended: with the empty string as first argument, MinimizeApp and
MinimizeAllWindowsExcluding raise no TypeError; the native function is invoked once with the
empty string, and when it returns a result the call returns the result object built from it. -/
theorem empty_name_reaches_native (N : NativeLayer) (rest : List JsValue) :
    ((∀ m, (MinimizeApp N (JsValue.string "" :: rest)).pending ≠ some (JsError.TypeError m)) ∧
      (MinimizeApp N (JsValue.string "" :: rest)).calls = [NativeCall.MinimizeAppNative ""] ∧
      (∀ r, N.MinimizeAppNative "" = NativeOutcome.returns r →
        (MinimizeApp N (JsValue.string "" :: rest)).resultObject =
          some [("success", JsValue.boolean r.success), ("minimized", JsValue.number r.minimized),
            ("total", JsValue.number r.total), ("error", JsValue.string r.error),
            ("errorCode", JsValue.string r.errorCode)])) ∧
    ((∀ m, (MinimizeAllWindowsExcluding N (JsValue.string "" :: rest)).pending
        ≠ some (JsError.TypeError m)) ∧
      (MinimizeAllWindowsExcluding N (JsValue.string "" :: rest)).calls
        = [NativeCall.MinimizeAllWindowsExcludingNative ""] ∧
      (∀ r, N.MinimizeAllWindowsExcludingNative "" = NativeOutcome.returns r →
        (MinimizeAllWindowsExcluding N (JsValue.string "" :: rest)).resultObject =
          some [("success", JsValue.boolean r.success), ("minimized", JsValue.number r.minimized),
            ("total", JsValue.number r.total), ("error", JsValue.string r.error),
            ("errorCode", JsValue.string r.errorCode)])) := by
  constructor
  · rcases h : N.MinimizeAppNative "" with r | (m | _)
    · simp [MinimizeApp_of_returns rest h, CallbackResult.resultObject]
    · simp [MinimizeApp_of_stdException rest h]
    · simp [MinimizeApp_of_nonStd rest h]
  · rcases h : N.MinimizeAllWindowsExcludingNative "" with r | (m | _)
    · simp [MinimizeAllWindowsExcluding_of_returns rest h, CallbackResult.resultObject]
    · simp [MinimizeAllWindowsExcluding_of_stdException rest h]
    · simp [MinimizeAllWindowsExcluding_of_nonStd rest h]

/-- Witness of the amended C2 on a platform layer that refuses every operation. -/
theorem empty_name_reaches_native_witness :
    (MinimizeApp (constantLayer deniedResult) [JsValue.string ""]).resultObject =
        some [("success", JsValue.boolean false), ("minimized", JsValue.number 0),
          ("total", JsValue.number 4),
          ("error", JsValue.string "Accessibility permission denied"),
          ("errorCode", JsValue.string "PERMISSION_DENIED")] ∧
      (MinimizeAllWindowsExcluding (constantLayer deniedResult) [JsValue.string ""]).resultObject =
        some [("success", JsValue.boolean false), ("minimized", JsValue.number 0),
          ("total", JsValue.number 4),
          ("error", JsValue.string "Accessibility permission denied"),
          ("errorCode", JsValue.string "PERMISSION_DENIED")] :=
  ⟨(empty_name_reaches_native (constantLayer deniedResult) []).1.2.2 deniedResult rfl,
    (empty_name_reaches_native (constantLayer deniedResult) []).2.2.2 deniedResult rfl⟩

/-- C3, as stated, fails: when the native call throws a `std::exception`, each of the five
operations returns null with an Error pending, and hands no result object to the caller. -/
theorem native_throw_yields_no_result :
    ((MinimizeAllWindows (throwingLayer "boom") []).resultObject = none ∧
      (MinimizeAllWindows (throwingLayer "boom") []).pending = some (JsError.Error "boom")) ∧
    ((RestoreAllWindows (throwingLayer "boom") []).resultObject = none ∧
      (RestoreAllWindows (throwingLayer "boom") []).pending = some (JsError.Error "boom")) ∧
    ((HideAllApps (throwingLayer "boom") []).resultObject = none ∧
      (HideAllApps (throwingLayer "boom") []).pending = some (JsError.Error "boom")) ∧
    ((MinimizeApp (throwingLayer "boom") [JsValue.string "Finder"]).resultObject = none ∧
      (MinimizeApp (throwingLayer "boom") [JsValue.string "Finder"]).pending
        = some (JsError.Error "boom")) ∧
    ((MinimizeAllWindowsExcluding (throwingLayer "boom") [JsValue.string "Finder"]).resultObject
        = none ∧
      (MinimizeAllWindowsExcluding (throwingLayer "boom") [JsValue.string "Finder"]).pending
        = some (JsError.Error "boom")) := by
  have h1 : (throwingLayer "boom").MinimizeAllWindowsNative
      = NativeOutcome.throws (CppException.stdException "boom") := rfl
  have h2 : (throwingLayer "boom").RestoreAllWindowsNative
      = NativeOutcome.throws (CppException.stdException "boom") := rfl
  have h3 : (throwingLayer "boom").HideAllAppsNative
      = NativeOutcome.throws (CppException.stdException "boom") := rfl
  have h4 : (throwingLayer "boom").MinimizeAppNative "Finder"
      = NativeOutcome.throws (CppException.stdException "boom") := rfl
  have h5 : (throwingLayer "boom").MinimizeAllWindowsExcludingNative "Finder"
      = NativeOutcome.throws (CppException.stdException "boom") := rfl
  rw [MinimizeAllWindows_of_stdException [] h1, RestoreAllWindows_of_stdException [] h2,
    HideAllApps_of_stdException [] h3, MinimizeApp_of_stdException [] h4,
    MinimizeAllWindowsExcluding_of_stdException [] h5]
  simp [CallbackResult.resultObject]

/-- C3, amended: for each of the five operations (the last two with a string argument), whenever
the native call throws an exception the operation hands no result object to the caller; a result
object with success = false, carrying the native error and errorCode, is returned when the native
call itself returns a result whose success is false. -/
theorem failure_result_comes_from_native (N : NativeLayer) (info : CallbackInfo) (s : String) :
    ((∀ e, N.MinimizeAllWindowsNative = NativeOutcome.throws e →
        (MinimizeAllWindows N info).resultObject = none) ∧
      (∀ r, N.MinimizeAllWindowsNative = NativeOutcome.returns r → r.success = false →
        ∃ o, (MinimizeAllWindows N info).resultObject = some o ∧
          Object.Get o "success" = JsValue.boolean false ∧
          Object.Get o "error" = JsValue.string r.error ∧
          Object.Get o "errorCode" = JsValue.string r.errorCode)) ∧
    ((∀ e, N.RestoreAllWindowsNative = NativeOutcome.throws e →
        (RestoreAllWindows N info).resultObject = none) ∧
      (∀ r, N.RestoreAllWindowsNative = NativeOutcome.returns r → r.success = false →
        ∃ o, (RestoreAllWindows N info).resultObject = some o ∧
          Object.Get o "success" = JsValue.boolean false ∧
          Object.Get o "error" = JsValue.string r.error ∧
          Object.Get o "errorCode" = JsValue.string r.errorCode)) ∧
    ((∀ e, N.HideAllAppsNative = NativeOutcome.throws e →
        (HideAllApps N info).resultObject = none) ∧
      (∀ r, N.HideAllAppsNative = NativeOutcome.returns r → r.success = false →
        ∃ o, (HideAllApps N info).resultObject = some o ∧
          Object.Get o "success" = JsValue.boolean false ∧
          Object.Get o "error" = JsValue.string r.error ∧
          Object.Get o "errorCode" = JsValue.string r.errorCode)) ∧
    ((∀ e, N.MinimizeAppNative s = NativeOutcome.throws e →
        (MinimizeApp N (JsValue.string s :: info)).resultObject = none) ∧
      (∀ r, N.MinimizeAppNative s = NativeOutcome.returns r → r.success = false →
        ∃ o, (MinimizeApp N (JsValue.string s :: info)).resultObject = some o ∧
          Object.Get o "success" = JsValue.boolean false ∧
          Object.Get o "error" = JsValue.string r.error ∧
          Object.Get o "errorCode" = JsValue.string r.errorCode)) ∧
    ((∀ e, N.MinimizeAllWindowsExcludingNative s = NativeOutcome.throws e →
        (MinimizeAllWindowsExcluding N (JsValue.string s :: info)).resultObject = none) ∧
      (∀ r, N.MinimizeAllWindowsExcludingNative s = NativeOutcome.returns r → r.success = false →
        ∃ o, (MinimizeAllWindowsExcluding N (JsValue.string s :: info)).resultObject = some o ∧
          Object.Get o "success" = JsValue.boolean false ∧
          Object.Get o "error" = JsValue.string r.error ∧
          Object.Get o "errorCode" = JsValue.string r.errorCode)) := by
  refine ⟨⟨?_, ?_⟩, ⟨?_, ?_⟩, ⟨?_, ?_⟩, ⟨?_, ?_⟩, ⟨?_, ?_⟩⟩
  · rintro (m | _) h
    · simp [MinimizeAllWindows_of_stdException info h, CallbackResult.resultObject]
    · simp [MinimizeAllWindows_of_nonStd info h, CallbackResult.resultObject]
  · intro r h hs
    simp [MinimizeAllWindows_of_returns info h, CallbackResult.resultObject, Object.Get, hs]
  · rintro (m | _) h
    · simp [RestoreAllWindows_of_stdException info h, CallbackResult.resultObject]
    · simp [RestoreAllWindows_of_nonStd info h, CallbackResult.resultObject]
  · intro r h hs
    simp [RestoreAllWindows_of_returns info h, CallbackResult.resultObject, Object.Get, hs]
  · rintro (m | _) h
    · simp [HideAllApps_of_stdException info h, CallbackResult.resultObject]
    · simp [HideAllApps_of_nonStd info h, CallbackResult.resultObject]
  · intro r h hs
    simp [HideAllApps_of_returns info h, CallbackResult.resultObject, Object.Get, hs]
  · rintro (m | _) h
    · simp [MinimizeApp_of_stdException info h, CallbackResult.resultObject]
    · simp [MinimizeApp_of_nonStd info h, CallbackResult.resultObject]
  · intro r h hs
    simp [MinimizeApp_of_returns info h, CallbackResult.resultObject, Object.Get, hs]
  · rintro (m | _) h
    · simp [MinimizeAllWindowsExcluding_of_stdException info h, CallbackResult.resultObject]
    · simp [MinimizeAllWindowsExcluding_of_nonStd info h, CallbackResult.resultObject]
  · intro r h hs
    simp [MinimizeAllWindowsExcluding_of_returns info h, CallbackResult.resultObject, Object.Get,
      hs]

/-- Witness of the amended C3: a thrown exception gives MinimizeAllWindows no result object, and
a refusal returned by the platform layer gives one with success = false. -/
theorem failure_result_comes_from_native_witness :
    (MinimizeAllWindows (throwingLayer "boom") []).resultObject = none ∧
    ∃ o, (MinimizeAllWindows (constantLayer deniedResult) []).resultObject = some o ∧
      Object.Get o "success" = JsValue.boolean false ∧
      Object.Get o "error" = JsValue.string deniedResult.error ∧
      Object.Get o "errorCode" = JsValue.string deniedResult.errorCode :=
  ⟨(failure_result_comes_from_native (throwingLayer "boom") [] "Finder").1.1
      (CppException.stdException "boom") rfl,
    (failure_result_comes_from_native (constantLayer deniedResult) [] "Finder").1.2
      deniedResult rfl rfl⟩

/-- C4: when the native call returns a result r without throwing, MinimizeAllWindows, MinimizeApp
and MinimizeAllWindowsExcluding (the last two with a string argument) return the object with
exactly the properties success, minimized, total, error, errorCode holding r.success,
r.minimized, r.total, r.error, r.errorCode, and RestoreAllWindows returns the object with exactly
the properties success, restored, total, error, errorCode holding r.success, r.restored, r.total,
r.error, r.errorCode; no exception is pending. In particular the native result
(true, 0, 0, "", "") of MinimizeAllWindowsNative yields the object
(success: true, minimized: 0, total: 0, error: "", errorCode: ""). -/
theorem result_object_mirrors_native_result (N : NativeLayer) (info : CallbackInfo)
    (s : String) (r : WindowManagerResult) :
    (N.MinimizeAllWindowsNative = NativeOutcome.returns r →
      (MinimizeAllWindows N info).completion = Completion.returned (JsValue.object
        [("success", JsValue.boolean r.success), ("minimized", JsValue.number r.minimized),
          ("total", JsValue.number r.total), ("error", JsValue.string r.error),
          ("errorCode", JsValue.string r.errorCode)]) ∧
      (MinimizeAllWindows N info).pending = none) ∧
    (N.MinimizeAppNative s = NativeOutcome.returns r →
      (MinimizeApp N (JsValue.string s :: info)).completion = Completion.returned (JsValue.object
        [("success", JsValue.boolean r.success), ("minimized", JsValue.number r.minimized),
          ("total", JsValue.number r.total), ("error", JsValue.string r.error),
          ("errorCode", JsValue.string r.errorCode)]) ∧
      (MinimizeApp N (JsValue.string s :: info)).pending = none) ∧
    (N.MinimizeAllWindowsExcludingNative s = NativeOutcome.returns r →
      (MinimizeAllWindowsExcluding N (JsValue.string s :: info)).completion =
        Completion.returned (JsValue.object
          [("success", JsValue.boolean r.success), ("minimized", JsValue.number r.minimized),
            ("total", JsValue.number r.total), ("error", JsValue.string r.error),
            ("errorCode", JsValue.string r.errorCode)]) ∧
      (MinimizeAllWindowsExcluding N (JsValue.string s :: info)).pending = none) ∧
    (N.RestoreAllWindowsNative = NativeOutcome.returns r →
      (RestoreAllWindows N info).completion = Completion.returned (JsValue.object
        [("success", JsValue.boolean r.success), ("restored", JsValue.number r.restored),
          ("total", JsValue.number r.total), ("error", JsValue.string r.error),
          ("errorCode", JsValue.string r.errorCode)]) ∧
      (RestoreAllWindows N info).pending = none) ∧
    (N.MinimizeAllWindowsNative = NativeOutcome.returns r →
      r.success = true → r.minimized = 0 → r.total = 0 → r.error = "" → r.errorCode = "" →
      (MinimizeAllWindows N info).resultObject =
        some [("success", JsValue.boolean true), ("minimized", JsValue.number 0),
          ("total", JsValue.number 0), ("error", JsValue.string ""),
          ("errorCode", JsValue.string "")]) := by
  refine ⟨?_, ?_, ?_, ?_, ?_⟩
  · intro h
    simp [MinimizeAllWindows_of_returns info h]
  · intro h
    simp [MinimizeApp_of_returns info h]
  · intro h
    simp [MinimizeAllWindowsExcluding_of_returns info h]
  · intro h
    simp [RestoreAllWindows_of_returns info h]
  · intro h h1 h2 h3 h4 h5
    simp [MinimizeAllWindows_of_returns info h, CallbackResult.resultObject, h1, h2, h3, h4, h5]

/-- Witness of C4: every branch at a platform layer that returns filled counters, and the
zero-window scenario at a platform layer that finds no window. -/
theorem result_object_mirrors_native_result_witness :
    ((MinimizeAllWindows (constantLayer busyResult) [JsValue.number 1]).completion =
        Completion.returned (JsValue.object
          [("success", JsValue.boolean true), ("minimized", JsValue.number 7),
            ("total", JsValue.number 9), ("error", JsValue.string ""),
            ("errorCode", JsValue.string "")]) ∧
      (MinimizeAllWindows (constantLayer busyResult) [JsValue.number 1]).pending = none) ∧
    ((MinimizeApp (constantLayer busyResult)
        [JsValue.string "Finder", JsValue.number 1]).completion =
        Completion.returned (JsValue.object
          [("success", JsValue.boolean true), ("minimized", JsValue.number 7),
            ("total", JsValue.number 9), ("error", JsValue.string ""),
            ("errorCode", JsValue.string "")]) ∧
      (MinimizeApp (constantLayer busyResult)
        [JsValue.string "Finder", JsValue.number 1]).pending = none) ∧
    ((MinimizeAllWindowsExcluding (constantLayer busyResult)
        [JsValue.string "Finder", JsValue.number 1]).completion =
        Completion.returned (JsValue.object
          [("success", JsValue.boolean true), ("minimized", JsValue.number 7),
            ("total", JsValue.number 9), ("error", JsValue.string ""),
            ("errorCode", JsValue.string "")]) ∧
      (MinimizeAllWindowsExcluding (constantLayer busyResult)
        [JsValue.string "Finder", JsValue.number 1]).pending = none) ∧
    ((RestoreAllWindows (constantLayer busyResult) [JsValue.number 1]).completion =
        Completion.returned (JsValue.object
          [("success", JsValue.boolean true), ("restored", JsValue.number 2),
            ("total", JsValue.number 9), ("error", JsValue.string ""),
            ("errorCode", JsValue.string "")]) ∧
      (RestoreAllWindows (constantLayer busyResult) [JsValue.number 1]).pending = none) ∧
    (MinimizeAllWindows quietLayer []).resultObject =
      some [("success", JsValue.boolean true), ("minimized", JsValue.number 0),
        ("total", JsValue.number 0), ("error", JsValue.string ""),
        ("errorCode", JsValue.string "")] :=
  ⟨(result_object_mirrors_native_result (constantLayer busyResult) [JsValue.number 1] "Finder"
      busyResult).1 rfl,
    (result_object_mirrors_native_result (constantLayer busyResult) [JsValue.number 1] "Finder"
      busyResult).2.1 rfl,
    (result_object_mirrors_native_result (constantLayer busyResult) [JsValue.number 1] "Finder"
      busyResult).2.2.1 rfl,
    (result_object_mirrors_native_result (constantLayer busyResult) [JsValue.number 1] "Finder"
      busyResult).2.2.2.1 rfl,
    (result_object_mirrors_native_result quietLayer [] "Finder" emptyResult).2.2.2.2
      rfl rfl rfl rfl rfl rfl⟩

/-- C5, as stated, fails: a platform layer that reports success together with an error text
makes MinimizeAllWindows return an object with success = true and a non-empty error, which
violates the success/error invariant. -/
theorem success_with_error_text_passes_through :
    (MinimizeAllWindows (constantLayer staleErrorResult) []).resultObject =
      some [("success", JsValue.boolean true), ("minimized", JsValue.number 2),
        ("total", JsValue.number 3), ("error", JsValue.string "stale"),
        ("errorCode", JsValue.string "")] ∧
    ¬ Object.Consistent [("success", JsValue.boolean true), ("minimized", JsValue.number 2),
        ("total", JsValue.number 3), ("error", JsValue.string "stale"),
        ("errorCode", JsValue.string "")] := by
  have h : (constantLayer staleErrorResult).MinimizeAllWindowsNative
      = NativeOutcome.returns staleErrorResult := rfl
  constructor
  · rw [MinimizeAllWindows_of_returns [] h]
    simp [CallbackResult.resultObject, staleErrorResult]
  · rintro ⟨b, e, c, hb, he, hc, -, h2⟩
    simp [Object.Get] at hb he hc
    subst hb he hc
    simp at h2

/-- C5, amended: every result object returned by MinimizeAllWindows, RestoreAllWindows,
HideAllApps, MinimizeApp or MinimizeAllWindowsExcluding comes from a result r returned by the
native call and carries r.success, r.error and r.errorCode unchanged; it satisfies the
success/error invariant if and only if r satisfies it. -/
theorem success_error_invariant_is_inherited (N : NativeLayer) (info : CallbackInfo)
    (o : Object) :
    ((MinimizeAllWindows N info).resultObject = some o →
      ∃ r, N.MinimizeAllWindowsNative = NativeOutcome.returns r ∧
        Object.Get o "success" = JsValue.boolean r.success ∧
        Object.Get o "error" = JsValue.string r.error ∧
        Object.Get o "errorCode" = JsValue.string r.errorCode ∧
        (Object.Consistent o ↔ r.Consistent)) ∧
    ((RestoreAllWindows N info).resultObject = some o →
      ∃ r, N.RestoreAllWindowsNative = NativeOutcome.returns r ∧
        Object.Get o "success" = JsValue.boolean r.success ∧
        Object.Get o "error" = JsValue.string r.error ∧
        Object.Get o "errorCode" = JsValue.string r.errorCode ∧
        (Object.Consistent o ↔ r.Consistent)) ∧
    ((HideAllApps N info).resultObject = some o →
      ∃ r, N.HideAllAppsNative = NativeOutcome.returns r ∧
        Object.Get o "success" = JsValue.boolean r.success ∧
        Object.Get o "error" = JsValue.string r.error ∧
        Object.Get o "errorCode" = JsValue.string r.errorCode ∧
        (Object.Consistent o ↔ r.Consistent)) ∧
    ((MinimizeApp N info).resultObject = some o →
      ∃ s rest r, info = JsValue.string s :: rest ∧
        N.MinimizeAppNative s = NativeOutcome.returns r ∧
        Object.Get o "success" = JsValue.boolean r.success ∧
        Object.Get o "error" = JsValue.string r.error ∧
        Object.Get o "errorCode" = JsValue.string r.errorCode ∧
        (Object.Consistent o ↔ r.Consistent)) ∧
    ((MinimizeAllWindowsExcluding N info).resultObject = some o →
      ∃ s rest r, info = JsValue.string s :: rest ∧
        N.MinimizeAllWindowsExcludingNative s = NativeOutcome.returns r ∧
        Object.Get o "success" = JsValue.boolean r.success ∧
        Object.Get o "error" = JsValue.string r.error ∧
        Object.Get o "errorCode" = JsValue.string r.errorCode ∧
        (Object.Consistent o ↔ r.Consistent)) := by
  refine ⟨?_, ?_, ?_, ?_, ?_⟩
  · intro h
    obtain ⟨r, hN, rfl⟩ := MinimizeAllWindows_resultObject h
    exact ⟨r, hN, rfl, rfl, rfl, Object.consistent_iff_of_fields rfl rfl rfl⟩
  · intro h
    obtain ⟨r, hN, rfl⟩ := RestoreAllWindows_resultObject h
    exact ⟨r, hN, rfl, rfl, rfl, Object.consistent_iff_of_fields rfl rfl rfl⟩
  · intro h
    obtain ⟨r, hN, rfl⟩ := HideAllApps_resultObject h
    exact ⟨r, hN, rfl, rfl, rfl, Object.consistent_iff_of_fields rfl rfl rfl⟩
  · intro h
    obtain ⟨s, rest, r, hi, hN, rfl⟩ := MinimizeApp_resultObject h
    exact ⟨s, rest, r, hi, hN, rfl, rfl, rfl, Object.consistent_iff_of_fields rfl rfl rfl⟩
  · intro h
    obtain ⟨s, rest, r, hi, hN, rfl⟩ := MinimizeAllWindowsExcluding_resultObject h
    exact ⟨s, rest, r, hi, hN, rfl, rfl, rfl, Object.consistent_iff_of_fields rfl rfl rfl⟩

/-- Witness of the amended C5: the object HideAllApps builds from a refusal returned by the
platform layer. -/
theorem success_error_invariant_is_inherited_witness :
    ∃ r, (constantLayer deniedResult).HideAllAppsNative = NativeOutcome.returns r ∧
      Object.Get [("success", JsValue.boolean false),
          ("error", JsValue.string "Accessibility permission denied"),
          ("errorCode", JsValue.string "PERMISSION_DENIED")] "success"
        = JsValue.boolean r.success ∧
      Object.Get [("success", JsValue.boolean false),
          ("error", JsValue.string "Accessibility permission denied"),
          ("errorCode", JsValue.string "PERMISSION_DENIED")] "error"
        = JsValue.string r.error ∧
      Object.Get [("success", JsValue.boolean false),
          ("error", JsValue.string "Accessibility permission denied"),
          ("errorCode", JsValue.string "PERMISSION_DENIED")] "errorCode"
        = JsValue.string r.errorCode ∧
      (Object.Consistent [("success", JsValue.boolean false),
          ("error", JsValue.string "Accessibility permission denied"),
          ("errorCode", JsValue.string "PERMISSION_DENIED")] ↔ r.Consistent) :=
  (success_error_invariant_is_inherited (constantLayer deniedResult) []
    [("success", JsValue.boolean false),
      ("error", JsValue.string "Accessibility permission denied"),
      ("errorCode", JsValue.string "PERMISSION_DENIED")]).2.2.1 rfl

/-- C6, as stated, fails: a platform layer that counts more minimized windows than windows found
makes MinimizeAllWindows return an object with minimized = 5 and total = 3, which violates
0 <= minimized <= total. -/
theorem overcount_passes_through :
    (MinimizeAllWindows (constantLayer overcountResult) []).resultObject =
      some [("success", JsValue.boolean true), ("minimized", JsValue.number 5),
        ("total", JsValue.number 3), ("error", JsValue.string ""),
        ("errorCode", JsValue.string "")] ∧
    ¬ Object.CountBounded [("success", JsValue.boolean true), ("minimized", JsValue.number 5),
        ("total", JsValue.number 3), ("error", JsValue.string ""),
        ("errorCode", JsValue.string "")] "minimized" := by
  have h : (constantLayer overcountResult).MinimizeAllWindowsNative
      = NativeOutcome.returns overcountResult := rfl
  constructor
  · rw [MinimizeAllWindows_of_returns [] h]
    simp [CallbackResult.resultObject, overcountResult]
  · rintro ⟨n, t, hn, ht, -, hle⟩
    simp [Object.Get] at hn ht
    subst hn ht
    exact absurd hle (by decide)

/-- C6, amended: every result object returned by a count-bearing operation comes from a result r
returned by the native call and carries the native count (r.minimized for MinimizeAllWindows,
MinimizeApp and MinimizeAllWindowsExcluding, r.restored for RestoreAllWindows) and r.total
unchanged; it satisfies 0 <= count <= total if and only if r does. -/
theorem count_invariant_is_inherited (N : NativeLayer) (info : CallbackInfo) (o : Object) :
    ((MinimizeAllWindows N info).resultObject = some o →
      ∃ r, N.MinimizeAllWindowsNative = NativeOutcome.returns r ∧
        Object.Get o "minimized" = JsValue.number r.minimized ∧
        Object.Get o "total" = JsValue.number r.total ∧
        (Object.CountBounded o "minimized" ↔ (0 ≤ r.minimized ∧ r.minimized ≤ r.total))) ∧
    ((MinimizeApp N info).resultObject = some o →
      ∃ s rest r, info = JsValue.string s :: rest ∧
        N.MinimizeAppNative s = NativeOutcome.returns r ∧
        Object.Get o "minimized" = JsValue.number r.minimized ∧
        Object.Get o "total" = JsValue.number r.total ∧
        (Object.CountBounded o "minimized" ↔ (0 ≤ r.minimized ∧ r.minimized ≤ r.total))) ∧
    ((MinimizeAllWindowsExcluding N info).resultObject = some o →
      ∃ s rest r, info = JsValue.string s :: rest ∧
        N.MinimizeAllWindowsExcludingNative s = NativeOutcome.returns r ∧
        Object.Get o "minimized" = JsValue.number r.minimized ∧
        Object.Get o "total" = JsValue.number r.total ∧
        (Object.CountBounded o "minimized" ↔ (0 ≤ r.minimized ∧ r.minimized ≤ r.total))) ∧
    ((RestoreAllWindows N info).resultObject = some o →
      ∃ r, N.RestoreAllWindowsNative = NativeOutcome.returns r ∧
        Object.Get o "restored" = JsValue.number r.restored ∧
        Object.Get o "total" = JsValue.number r.total ∧
        (Object.CountBounded o "restored" ↔ (0 ≤ r.restored ∧ r.restored ≤ r.total))) := by
  refine ⟨?_, ?_, ?_, ?_⟩
  · intro h
    obtain ⟨r, hN, rfl⟩ := MinimizeAllWindows_resultObject h
    exact ⟨r, hN, rfl, rfl, Object.countBounded_iff_of_fields rfl rfl⟩
  · intro h
    obtain ⟨s, rest, r, hi, hN, rfl⟩ := MinimizeApp_resultObject h
    exact ⟨s, rest, r, hi, hN, rfl, rfl, Object.countBounded_iff_of_fields rfl rfl⟩
  · intro h
    obtain ⟨s, rest, r, hi, hN, rfl⟩ := MinimizeAllWindowsExcluding_resultObject h
    exact ⟨s, rest, r, hi, hN, rfl, rfl, Object.countBounded_iff_of_fields rfl rfl⟩
  · intro h
    obtain ⟨r, hN, rfl⟩ := RestoreAllWindows_resultObject h
    exact ⟨r, hN, rfl, rfl, Object.countBounded_iff_of_fields rfl rfl⟩

/-- Witness of the amended C6: the object RestoreAllWindows builds from filled counters. -/
theorem count_invariant_is_inherited_witness :
    ∃ r, (constantLayer busyResult).RestoreAllWindowsNative = NativeOutcome.returns r ∧
      Object.Get [("success", JsValue.boolean true), ("restored", JsValue.number 2),
          ("total", JsValue.number 9), ("error", JsValue.string ""),
          ("errorCode", JsValue.string "")] "restored" = JsValue.number r.restored ∧
      Object.Get [("success", JsValue.boolean true), ("restored", JsValue.number 2),
          ("total", JsValue.number 9), ("error", JsValue.string ""),
          ("errorCode", JsValue.string "")] "total" = JsValue.number r.total ∧
      (Object.CountBounded [("success", JsValue.boolean true), ("restored", JsValue.number 2),
          ("total", JsValue.number 9), ("error", JsValue.string ""),
          ("errorCode", JsValue.string "")] "restored" ↔ (0 ≤ r.restored ∧ r.restored ≤ r.total)) :=
  (count_invariant_is_inherited (constantLayer busyResult) []
    [("success", JsValue.boolean true), ("restored", JsValue.number 2),
      ("total", JsValue.number 9), ("error", JsValue.string ""),
      ("errorCode", JsValue.string "")]).2.2.2 rfl

/-- C7: each accepted call invokes its native function exactly once, with the input of the caller
unchanged, and invokes no other native function, whether the native call returns or throws:
MinimizeAllWindows, RestoreAllWindows and HideAllApps for every argument list; MinimizeApp and
MinimizeAllWindowsExcluding for every argument list whose first element is a string s, with
exactly s, whatever arguments follow. -/
theorem native_invoked_exactly_once (N : NativeLayer) (info : CallbackInfo) (s : String) :
    (MinimizeAllWindows N info).calls = [NativeCall.MinimizeAllWindowsNative] ∧
    (RestoreAllWindows N info).calls = [NativeCall.RestoreAllWindowsNative] ∧
    (HideAllApps N info).calls = [NativeCall.HideAllAppsNative] ∧
    (MinimizeApp N (JsValue.string s :: info)).calls = [NativeCall.MinimizeAppNative s] ∧
    (MinimizeAllWindowsExcluding N (JsValue.string s :: info)).calls
      = [NativeCall.MinimizeAllWindowsExcludingNative s] := by
  refine ⟨?_, ?_, ?_, ?_, ?_⟩
  · rcases h : N.MinimizeAllWindowsNative with r | (m | _)
    · simp [MinimizeAllWindows_of_returns info h]
    · simp [MinimizeAllWindows_of_stdException info h]
    · simp [MinimizeAllWindows_of_nonStd info h]
  · rcases h : N.RestoreAllWindowsNative with r | (m | _)
    · simp [RestoreAllWindows_of_returns info h]
    · simp [RestoreAllWindows_of_stdException info h]
    · simp [RestoreAllWindows_of_nonStd info h]
  · rcases h : N.HideAllAppsNative with r | (m | _)
    · simp [HideAllApps_of_returns info h]
    · simp [HideAllApps_of_stdException info h]
    · simp [HideAllApps_of_nonStd info h]
  · rcases h : N.MinimizeAppNative s with r | (m | _)
    · simp [MinimizeApp_of_returns info h]
    · simp [MinimizeApp_of_stdException info h]
    · simp [MinimizeApp_of_nonStd info h]
  · rcases h : N.MinimizeAllWindowsExcludingNative s with r | (m | _)
    · simp [MinimizeAllWindowsExcluding_of_returns info h]
    · simp [MinimizeAllWindowsExcluding_of_stdException info h]
    · simp [MinimizeAllWindowsExcluding_of_nonStd info h]

/-- C8: for every argument list, when RequestAccessibilityPermission returns the boolean b,
RequestPermission returns b with no error raised, and when CheckAccessibilityPermissionsNative
returns the boolean b, CheckAccessibilityPermissions returns b with no error raised; neither
callback ever sets a JavaScript exception, and CheckAccessibilityPermissions invokes
CheckAccessibilityPermissionsNative and no other native function. -/
theorem permission_callbacks_forward_native_boolean (N : NativeLayer) (info : CallbackInfo) :
    (∀ b, N.RequestAccessibilityPermission = NativeOutcome.returns b →
      (RequestPermission N info).completion = Completion.returned (JsValue.boolean b) ∧
      (RequestPermission N info).pending = none ∧
      (RequestPermission N info).calls = [NativeCall.RequestAccessibilityPermission]) ∧
    (∀ b, N.CheckAccessibilityPermissionsNative = NativeOutcome.returns b →
      (CheckAccessibilityPermissions N info).completion
        = Completion.returned (JsValue.boolean b) ∧
      (CheckAccessibilityPermissions N info).pending = none) ∧
    (RequestPermission N info).pending = none ∧
    (CheckAccessibilityPermissions N info).pending = none ∧
    (CheckAccessibilityPermissions N info).calls
      = [NativeCall.CheckAccessibilityPermissionsNative] := by
  refine ⟨?_, ?_, ?_, ?_, ?_⟩
  · intro b h
    simp [RequestPermission, callRequestAccessibilityPermission, h]
  · intro b h
    simp [CheckAccessibilityPermissions, callCheckAccessibilityPermissionsNative, h]
  · rcases h : N.RequestAccessibilityPermission with b | e <;>
      simp [RequestPermission, callRequestAccessibilityPermission, h]
  · rcases h : N.CheckAccessibilityPermissionsNative with b | e <;>
      simp [CheckAccessibilityPermissions, callCheckAccessibilityPermissionsNative, h]
  · rcases h : N.CheckAccessibilityPermissionsNative with b | e <;>
      simp [CheckAccessibilityPermissions, callCheckAccessibilityPermissionsNative, h]

/-- Witness of C8: with wrongly typed extra arguments, a granted permission is reported as true
and a denied one as false. -/
theorem permission_callbacks_forward_native_boolean_witness :
    ((RequestPermission quietLayer [JsValue.number 1, JsValue.null]).completion
        = Completion.returned (JsValue.boolean true) ∧
      (RequestPermission quietLayer [JsValue.number 1, JsValue.null]).pending = none ∧
      (RequestPermission quietLayer [JsValue.number 1, JsValue.null]).calls
        = [NativeCall.RequestAccessibilityPermission]) ∧
    ((CheckAccessibilityPermissions (throwingLayer "boom") [JsValue.string "x"]).completion
        = Completion.returned (JsValue.boolean false) ∧
      (CheckAccessibilityPermissions (throwingLayer "boom") [JsValue.string "x"]).pending
        = none) :=
  ⟨(permission_callbacks_forward_native_boolean quietLayer
      [JsValue.number 1, JsValue.null]).1 true rfl,
    (permission_callbacks_forward_native_boolean (throwingLayer "boom")
      [JsValue.string "x"]).2.1 false rfl⟩

/-- C9: when HideAllAppsNative returns a result r without throwing, HideAllApps returns, for every
argument list and with no error raised, the object with exactly the properties success, error,
errorCode holding r.success, r.error, r.errorCode; the object has no minimized, restored or total
property, and two native results that agree on success, error and errorCode give the same
object whatever their minimized, restored and total are. -/
theorem hide_all_apps_result_has_no_count (N M : NativeLayer) (info args : CallbackInfo)
    (r q : WindowManagerResult) :
    (N.HideAllAppsNative = NativeOutcome.returns r →
      (HideAllApps N info).resultObject =
        some [("success", JsValue.boolean r.success), ("error", JsValue.string r.error),
          ("errorCode", JsValue.string r.errorCode)] ∧
      ∀ o, (HideAllApps N info).resultObject = some o →
        Object.keys o = ["success", "error", "errorCode"] ∧
        "minimized" ∉ Object.keys o ∧ "restored" ∉ Object.keys o ∧ "total" ∉ Object.keys o) ∧
    (N.HideAllAppsNative = NativeOutcome.returns r → M.HideAllAppsNative = NativeOutcome.returns q →
      r.success = q.success → r.error = q.error → r.errorCode = q.errorCode →
      (HideAllApps N info).resultObject = (HideAllApps M args).resultObject) := by
  constructor
  · intro h
    constructor
    · simp [HideAllApps_of_returns info h, CallbackResult.resultObject]
    · intro o ho
      obtain ⟨p, -, rfl⟩ := HideAllApps_resultObject ho
      simp [Object.keys]
  · intro h1 h2 hs he hc
    simp [HideAllApps_of_returns info h1, HideAllApps_of_returns args h2,
      CallbackResult.resultObject, hs, he, hc]

/-- Witness of C9: a result with filled counters and one with zero counters give the same
three-property object. -/
theorem hide_all_apps_result_has_no_count_witness :
    ((HideAllApps (constantLayer busyResult) [JsValue.number 1]).resultObject =
        some [("success", JsValue.boolean true), ("error", JsValue.string ""),
          ("errorCode", JsValue.string "")] ∧
      ∀ o, (HideAllApps (constantLayer busyResult) [JsValue.number 1]).resultObject = some o →
        Object.keys o = ["success", "error", "errorCode"] ∧
        "minimized" ∉ Object.keys o ∧ "restored" ∉ Object.keys o ∧ "total" ∉ Object.keys o) ∧
    (HideAllApps (constantLayer busyResult) [JsValue.number 1]).resultObject
      = (HideAllApps quietLayer []).resultObject :=
  ⟨(hide_all_apps_result_has_no_count (constantLayer busyResult) quietLayer [JsValue.number 1] []
      busyResult emptyResult).1 rfl,
    (hide_all_apps_result_has_no_count (constantLayer busyResult) quietLayer [JsValue.number 1] []
      busyResult emptyResult).2 rfl rfl rfl rfl rfl⟩

/-- C10, as stated, fails: when the native call throws an exception that is not a
`std::exception`, MinimizeAllWindows and MinimizeApp end with neither a result object nor a raised
error; the exception escapes the callback. -/
theorem non_std_exception_escapes :
    ((MinimizeAllWindows nonStdLayer []).completion = Completion.escaped CppException.nonStd ∧
      (MinimizeAllWindows nonStdLayer []).resultObject = none ∧
      ¬ (MinimizeAllWindows nonStdLayer []).RaisedError ∧
      ¬ (MinimizeAllWindows nonStdLayer []).EndsWellFormed
          ["success", "minimized", "total", "error", "errorCode"]) ∧
    ((MinimizeApp nonStdLayer [JsValue.string "Finder"]).completion
        = Completion.escaped CppException.nonStd ∧
      (MinimizeApp nonStdLayer [JsValue.string "Finder"]).resultObject = none ∧
      ¬ (MinimizeApp nonStdLayer [JsValue.string "Finder"]).RaisedError ∧
      ¬ (MinimizeApp nonStdLayer [JsValue.string "Finder"]).EndsWellFormed
          ["success", "minimized", "total", "error", "errorCode"]) := by
  have h1 : nonStdLayer.MinimizeAllWindowsNative = NativeOutcome.throws CppException.nonStd :=
    rfl
  have h2 : nonStdLayer.MinimizeAppNative "Finder" = NativeOutcome.throws CppException.nonStd :=
    rfl
  rw [MinimizeAllWindows_of_nonStd [] h1, MinimizeApp_of_nonStd [] h2]
  simp [CallbackResult.EndsWellFormed, CallbackResult.FullResult, CallbackResult.RaisedError,
    CallbackResult.resultObject]

/-- C10, amended: an exception thrown by the native call is never silently dropped. For each of
MinimizeAllWindows, RestoreAllWindows, HideAllApps, MinimizeApp and MinimizeAllWindowsExcluding
(the last two with a string argument): when the native call throws, the call never ends as a
plain return without a pending error; when it throws a `std::exception` with message m, the call
raises the generic Error with message exactly m and returns null, with no result object; when it
throws an exception of another type, that exception escapes the callback, which returns no value
and sets no JavaScript error; when it returns r, the call returns the fully populated result
object built from r and raises nothing. The call ends in exactly one of the two outcomes, fully
populated result object or raised error, if and only if the native call returns or throws a
`std::exception`. A call rejected for its arguments ends with a raised error and no result
object. -/
theorem native_exception_is_surfaced (N : NativeLayer) (info : CallbackInfo) (s : String) :
    ((∀ e, N.MinimizeAllWindowsNative = NativeOutcome.throws e →
        ¬ ((MinimizeAllWindows N info).pending = none ∧
          ∃ v, (MinimizeAllWindows N info).completion = Completion.returned v)) ∧
      (∀ m, N.MinimizeAllWindowsNative = NativeOutcome.throws (CppException.stdException m) →
        (MinimizeAllWindows N info).pending = some (JsError.Error m) ∧
        (MinimizeAllWindows N info).completion = Completion.returned JsValue.null ∧
        (MinimizeAllWindows N info).resultObject = none) ∧
      (N.MinimizeAllWindowsNative = NativeOutcome.throws CppException.nonStd →
        (MinimizeAllWindows N info).completion = Completion.escaped CppException.nonStd ∧
        (MinimizeAllWindows N info).pending = none) ∧
      (∀ r, N.MinimizeAllWindowsNative = NativeOutcome.returns r →
        (MinimizeAllWindows N info).resultObject =
          some [("success", JsValue.boolean r.success),
            ("minimized", JsValue.number r.minimized), ("total", JsValue.number r.total),
            ("error", JsValue.string r.error), ("errorCode", JsValue.string r.errorCode)] ∧
        (MinimizeAllWindows N info).FullResult
          ["success", "minimized", "total", "error", "errorCode"] ∧
        ¬ (MinimizeAllWindows N info).RaisedError) ∧
      ((MinimizeAllWindows N info).EndsWellFormed
          ["success", "minimized", "total", "error", "errorCode"] ↔
        N.MinimizeAllWindowsNative ≠ NativeOutcome.throws CppException.nonStd)) ∧
    ((∀ e, N.RestoreAllWindowsNative = NativeOutcome.throws e →
        ¬ ((RestoreAllWindows N info).pending = none ∧
          ∃ v, (RestoreAllWindows N info).completion = Completion.returned v)) ∧
      (∀ m, N.RestoreAllWindowsNative = NativeOutcome.throws (CppException.stdException m) →
        (RestoreAllWindows N info).pending = some (JsError.Error m) ∧
        (RestoreAllWindows N info).completion = Completion.returned JsValue.null ∧
        (RestoreAllWindows N info).resultObject = none) ∧
      (N.RestoreAllWindowsNative = NativeOutcome.throws CppException.nonStd →
        (RestoreAllWindows N info).completion = Completion.escaped CppException.nonStd ∧
        (RestoreAllWindows N info).pending = none) ∧
      (∀ r, N.RestoreAllWindowsNative = NativeOutcome.returns r →
        (RestoreAllWindows N info).resultObject =
          some [("success", JsValue.boolean r.success),
            ("restored", JsValue.number r.restored), ("total", JsValue.number r.total),
            ("error", JsValue.string r.error), ("errorCode", JsValue.string r.errorCode)] ∧
        (RestoreAllWindows N info).FullResult
          ["success", "restored", "total", "error", "errorCode"] ∧
        ¬ (RestoreAllWindows N info).RaisedError) ∧
      ((RestoreAllWindows N info).EndsWellFormed
          ["success", "restored", "total", "error", "errorCode"] ↔
        N.RestoreAllWindowsNative ≠ NativeOutcome.throws CppException.nonStd)) ∧
    ((∀ e, N.HideAllAppsNative = NativeOutcome.throws e →
        ¬ ((HideAllApps N info).pending = none ∧
          ∃ v, (HideAllApps N info).completion = Completion.returned v)) ∧
      (∀ m, N.HideAllAppsNative = NativeOutcome.throws (CppException.stdException m) →
        (HideAllApps N info).pending = some (JsError.Error m) ∧
        (HideAllApps N info).completion = Completion.returned JsValue.null ∧
        (HideAllApps N info).resultObject = none) ∧
      (N.HideAllAppsNative = NativeOutcome.throws CppException.nonStd →
        (HideAllApps N info).completion = Completion.escaped CppException.nonStd ∧
        (HideAllApps N info).pending = none) ∧
      (∀ r, N.HideAllAppsNative = NativeOutcome.returns r →
        (HideAllApps N info).resultObject =
          some [("success", JsValue.boolean r.success), ("error", JsValue.string r.error),
            ("errorCode", JsValue.string r.errorCode)] ∧
        (HideAllApps N info).FullResult
          ["success", "error", "errorCode"] ∧
        ¬ (HideAllApps N info).RaisedError) ∧
      ((HideAllApps N info).EndsWellFormed
          ["success", "error", "errorCode"] ↔
        N.HideAllAppsNative ≠ NativeOutcome.throws CppException.nonStd)) ∧
    ((∀ e, N.MinimizeAppNative s = NativeOutcome.throws e →
        ¬ ((MinimizeApp N (JsValue.string s :: info)).pending = none ∧
          ∃ v, (MinimizeApp N (JsValue.string s :: info)).completion = Completion.returned v)) ∧
      (∀ m, N.MinimizeAppNative s = NativeOutcome.throws (CppException.stdException m) →
        (MinimizeApp N (JsValue.string s :: info)).pending = some (JsError.Error m) ∧
        (MinimizeApp N (JsValue.string s :: info)).completion = Completion.returned JsValue.null ∧
        (MinimizeApp N (JsValue.string s :: info)).resultObject = none) ∧
      (N.MinimizeAppNative s = NativeOutcome.throws CppException.nonStd →
        (MinimizeApp N (JsValue.string s :: info)).completion = Completion.escaped CppException.nonStd ∧
        (MinimizeApp N (JsValue.string s :: info)).pending = none) ∧
      (∀ r, N.MinimizeAppNative s = NativeOutcome.returns r →
        (MinimizeApp N (JsValue.string s :: info)).resultObject =
          some [("success", JsValue.boolean r.success),
            ("minimized", JsValue.number r.minimized), ("total", JsValue.number r.total),
            ("error", JsValue.string r.error), ("errorCode", JsValue.string r.errorCode)] ∧
        (MinimizeApp N (JsValue.string s :: info)).FullResult
          ["success", "minimized", "total", "error", "errorCode"] ∧
        ¬ (MinimizeApp N (JsValue.string s :: info)).RaisedError) ∧
      ((MinimizeApp N (JsValue.string s :: info)).EndsWellFormed
          ["success", "minimized", "total", "error", "errorCode"] ↔
        N.MinimizeAppNative s ≠ NativeOutcome.throws CppException.nonStd)) ∧
    ((∀ e, N.MinimizeAllWindowsExcludingNative s = NativeOutcome.throws e →
        ¬ ((MinimizeAllWindowsExcluding N (JsValue.string s :: info)).pending = none ∧
          ∃ v, (MinimizeAllWindowsExcluding N (JsValue.string s :: info)).completion = Completion.returned v)) ∧
      (∀ m, N.MinimizeAllWindowsExcludingNative s = NativeOutcome.throws (CppException.stdException m) →
        (MinimizeAllWindowsExcluding N (JsValue.string s :: info)).pending = some (JsError.Error m) ∧
        (MinimizeAllWindowsExcluding N (JsValue.string s :: info)).completion = Completion.returned JsValue.null ∧
        (MinimizeAllWindowsExcluding N (JsValue.string s :: info)).resultObject = none) ∧
      (N.MinimizeAllWindowsExcludingNative s = NativeOutcome.throws CppException.nonStd →
        (MinimizeAllWindowsExcluding N (JsValue.string s :: info)).completion = Completion.escaped CppException.nonStd ∧
        (MinimizeAllWindowsExcluding N (JsValue.string s :: info)).pending = none) ∧
      (∀ r, N.MinimizeAllWindowsExcludingNative s = NativeOutcome.returns r →
        (MinimizeAllWindowsExcluding N (JsValue.string s :: info)).resultObject =
          some [("success", JsValue.boolean r.success),
            ("minimized", JsValue.number r.minimized), ("total", JsValue.number r.total),
            ("error", JsValue.string r.error), ("errorCode", JsValue.string r.errorCode)] ∧
        (MinimizeAllWindowsExcluding N (JsValue.string s :: info)).FullResult
          ["success", "minimized", "total", "error", "errorCode"] ∧
        ¬ (MinimizeAllWindowsExcluding N (JsValue.string s :: info)).RaisedError) ∧
      ((MinimizeAllWindowsExcluding N (JsValue.string s :: info)).EndsWellFormed
          ["success", "minimized", "total", "error", "errorCode"] ↔
        N.MinimizeAllWindowsExcludingNative s ≠ NativeOutcome.throws CppException.nonStd)) ∧
    ((info = [] ∨ ∃ v rest, info = v :: rest ∧ v.IsString = false) →
      ((MinimizeApp N info).RaisedError ∧ (MinimizeApp N info).resultObject = none) ∧
      ((MinimizeAllWindowsExcluding N info).RaisedError ∧
        (MinimizeAllWindowsExcluding N info).resultObject = none)) := by
  refine ⟨?_, ?_, ?_, ?_, ?_, ?_⟩
  · refine ⟨?_, ?_, ?_, ?_, ?_⟩
    · rintro (m | _) h
      · simp [MinimizeAllWindows_of_stdException info h]
      · simp [MinimizeAllWindows_of_nonStd info h]
    · intro m h
      simp [MinimizeAllWindows_of_stdException info h, CallbackResult.resultObject]
    · intro h
      simp [MinimizeAllWindows_of_nonStd info h]
    · intro r h
      simp [MinimizeAllWindows_of_returns info h, CallbackResult.FullResult,
        CallbackResult.RaisedError, CallbackResult.resultObject, Object.keys, Object.Get,
        fieldWellTyped, JsValue.IsBoolean, JsValue.IsNumber, JsValue.IsString]
    · rcases h : N.MinimizeAllWindowsNative with r | (m | _)
      · simp [MinimizeAllWindows_of_returns info h, CallbackResult.EndsWellFormed,
          CallbackResult.FullResult, CallbackResult.RaisedError, CallbackResult.resultObject,
          Object.keys, Object.Get, fieldWellTyped, JsValue.IsBoolean, JsValue.IsNumber,
          JsValue.IsString]
      · simp [MinimizeAllWindows_of_stdException info h, CallbackResult.EndsWellFormed,
          CallbackResult.FullResult, CallbackResult.RaisedError, CallbackResult.resultObject]
      · simp [MinimizeAllWindows_of_nonStd info h, CallbackResult.EndsWellFormed,
          CallbackResult.FullResult, CallbackResult.RaisedError, CallbackResult.resultObject]
  · refine ⟨?_, ?_, ?_, ?_, ?_⟩
    · rintro (m | _) h
      · simp [RestoreAllWindows_of_stdException info h]
      · simp [RestoreAllWindows_of_nonStd info h]
    · intro m h
      simp [RestoreAllWindows_of_stdException info h, CallbackResult.resultObject]
    · intro h
      simp [RestoreAllWindows_of_nonStd info h]
    · intro r h
      simp [RestoreAllWindows_of_returns info h, CallbackResult.FullResult,
        CallbackResult.RaisedError, CallbackResult.resultObject, Object.keys, Object.Get,
        fieldWellTyped, JsValue.IsBoolean, JsValue.IsNumber, JsValue.IsString]
    · rcases h : N.RestoreAllWindowsNative with r | (m | _)
      · simp [RestoreAllWindows_of_returns info h, CallbackResult.EndsWellFormed,
          CallbackResult.FullResult, CallbackResult.RaisedError, CallbackResult.resultObject,
          Object.keys, Object.Get, fieldWellTyped, JsValue.IsBoolean, JsValue.IsNumber,
          JsValue.IsString]
      · simp [RestoreAllWindows_of_stdException info h, CallbackResult.EndsWellFormed,
          CallbackResult.FullResult, CallbackResult.RaisedError, CallbackResult.resultObject]
      · simp [RestoreAllWindows_of_nonStd info h, CallbackResult.EndsWellFormed,
          CallbackResult.FullResult, CallbackResult.RaisedError, CallbackResult.resultObject]
  · refine ⟨?_, ?_, ?_, ?_, ?_⟩
    · rintro (m | _) h
      · simp [HideAllApps_of_stdException info h]
      · simp [HideAllApps_of_nonStd info h]
    · intro m h
      simp [HideAllApps_of_stdException info h, CallbackResult.resultObject]
    · intro h
      simp [HideAllApps_of_nonStd info h]
    · intro r h
      simp [HideAllApps_of_returns info h, CallbackResult.FullResult,
        CallbackResult.RaisedError, CallbackResult.resultObject, Object.keys, Object.Get,
        fieldWellTyped, JsValue.IsBoolean, JsValue.IsNumber, JsValue.IsString]
    · rcases h : N.HideAllAppsNative with r | (m | _)
      · simp [HideAllApps_of_returns info h, CallbackResult.EndsWellFormed,
          CallbackResult.FullResult, CallbackResult.RaisedError, CallbackResult.resultObject,
          Object.keys, Object.Get, fieldWellTyped, JsValue.IsBoolean, JsValue.IsNumber,
          JsValue.IsString]
      · simp [HideAllApps_of_stdException info h, CallbackResult.EndsWellFormed,
          CallbackResult.FullResult, CallbackResult.RaisedError, CallbackResult.resultObject]
      · simp [HideAllApps_of_nonStd info h, CallbackResult.EndsWellFormed,
          CallbackResult.FullResult, CallbackResult.RaisedError, CallbackResult.resultObject]
  · refine ⟨?_, ?_, ?_, ?_, ?_⟩
    · rintro (m | _) h
      · simp [MinimizeApp_of_stdException info h]
      · simp [MinimizeApp_of_nonStd info h]
    · intro m h
      simp [MinimizeApp_of_stdException info h, CallbackResult.resultObject]
    · intro h
      simp [MinimizeApp_of_nonStd info h]
    · intro r h
      simp [MinimizeApp_of_returns info h, CallbackResult.FullResult,
        CallbackResult.RaisedError, CallbackResult.resultObject, Object.keys, Object.Get,
        fieldWellTyped, JsValue.IsBoolean, JsValue.IsNumber, JsValue.IsString]
    · rcases h : N.MinimizeAppNative s with r | (m | _)
      · simp [MinimizeApp_of_returns info h, CallbackResult.EndsWellFormed,
          CallbackResult.FullResult, CallbackResult.RaisedError, CallbackResult.resultObject,
          Object.keys, Object.Get, fieldWellTyped, JsValue.IsBoolean, JsValue.IsNumber,
          JsValue.IsString]
      · simp [MinimizeApp_of_stdException info h, CallbackResult.EndsWellFormed,
          CallbackResult.FullResult, CallbackResult.RaisedError, CallbackResult.resultObject]
      · simp [MinimizeApp_of_nonStd info h, CallbackResult.EndsWellFormed,
          CallbackResult.FullResult, CallbackResult.RaisedError, CallbackResult.resultObject]
  · refine ⟨?_, ?_, ?_, ?_, ?_⟩
    · rintro (m | _) h
      · simp [MinimizeAllWindowsExcluding_of_stdException info h]
      · simp [MinimizeAllWindowsExcluding_of_nonStd info h]
    · intro m h
      simp [MinimizeAllWindowsExcluding_of_stdException info h, CallbackResult.resultObject]
    · intro h
      simp [MinimizeAllWindowsExcluding_of_nonStd info h]
    · intro r h
      simp [MinimizeAllWindowsExcluding_of_returns info h, CallbackResult.FullResult,
        CallbackResult.RaisedError, CallbackResult.resultObject, Object.keys, Object.Get,
        fieldWellTyped, JsValue.IsBoolean, JsValue.IsNumber, JsValue.IsString]
    · rcases h : N.MinimizeAllWindowsExcludingNative s with r | (m | _)
      · simp [MinimizeAllWindowsExcluding_of_returns info h, CallbackResult.EndsWellFormed,
          CallbackResult.FullResult, CallbackResult.RaisedError, CallbackResult.resultObject,
          Object.keys, Object.Get, fieldWellTyped, JsValue.IsBoolean, JsValue.IsNumber,
          JsValue.IsString]
      · simp [MinimizeAllWindowsExcluding_of_stdException info h, CallbackResult.EndsWellFormed,
          CallbackResult.FullResult, CallbackResult.RaisedError, CallbackResult.resultObject]
      · simp [MinimizeAllWindowsExcluding_of_nonStd info h, CallbackResult.EndsWellFormed,
          CallbackResult.FullResult, CallbackResult.RaisedError, CallbackResult.resultObject]
  · intro h
    simp [MinimizeApp_of_rejected N info h, MinimizeAllWindowsExcluding_of_rejected N info h,
      CallbackResult.RaisedError, CallbackResult.resultObject]

/-- Witness of the amended C10: the Error raised by MinimizeApp when the platform layer throws
"boom", the escape of an exception of another type from RestoreAllWindows, the object HideAllApps
builds from a refusal returned by the platform layer, and the well-formed end of
MinimizeAllWindows on a platform layer that finds no window. -/
theorem native_exception_is_surfaced_witness :
    ((MinimizeApp (throwingLayer "boom") [JsValue.string "Finder"]).pending
        = some (JsError.Error "boom") ∧
      (MinimizeApp (throwingLayer "boom") [JsValue.string "Finder"]).completion
        = Completion.returned JsValue.null ∧
      (MinimizeApp (throwingLayer "boom") [JsValue.string "Finder"]).resultObject = none) ∧
    ((RestoreAllWindows nonStdLayer []).completion = Completion.escaped CppException.nonStd ∧
      (RestoreAllWindows nonStdLayer []).pending = none) ∧
    ((HideAllApps (constantLayer deniedResult) []).resultObject =
        some [("success", JsValue.boolean deniedResult.success),
          ("error", JsValue.string deniedResult.error),
          ("errorCode", JsValue.string deniedResult.errorCode)] ∧
      (HideAllApps (constantLayer deniedResult) []).FullResult ["success", "error", "errorCode"] ∧
      ¬ (HideAllApps (constantLayer deniedResult) []).RaisedError) ∧
    (MinimizeAllWindows quietLayer []).EndsWellFormed
      ["success", "minimized", "total", "error", "errorCode"] :=
  ⟨(native_exception_is_surfaced (throwingLayer "boom") [] "Finder").2.2.2.1.2.1 "boom" rfl,
    (native_exception_is_surfaced nonStdLayer [] "Finder").2.1.2.2.1 rfl,
    (native_exception_is_surfaced (constantLayer deniedResult) [] "Finder").2.2.1.2.2.2.1
      deniedResult rfl,
    (native_exception_is_surfaced quietLayer [] "Finder").1.2.2.2.2.2 (by decide)⟩

end WindowHelper
